import Mathlib

/-!
Shallow embedding of `src/server.js`: a single-tenant email relay with a
single-flight send gate (`isSending`), a cooperative cancellation flag
(`stopRequested`) and a process-lifetime counter (`emailCount`).

The mutable globals become an explicit `ServerState` threaded through each
route handler.  The external mail transport (nodemailer) is modelled by an
environment recording the outcome of `transporter.verify()` and
`transporter.sendMail(...)`, and whether a `POST /stop-sending` request is
processed while the handler is suspended at one of those two `await`
points (the only suspension points of the handlers).  Each handler returns
the JSON response produced, the state left behind after its `finally`
block, and a trace of transport-facing events, so that "the transport was
never contacted" and "the message was not submitted" are observable.
-/

/-- A nodemailer-style error: an optional `code` and a `message`. -/
structure TransportError where
  code : Option String
  message : String
deriving DecidableEq, Repr

/-- Wire-format attachment from the request body. -/
structure Attachment where
  filename : String
  content : String
  contentType : String
deriving DecidableEq, Repr

/-- Request body of the send routes.  Fields are `Option` because JS
destructuring yields `undefined` for absent keys; JS truthiness treats both
`undefined` and `""` as falsy (see `truthy`). -/
structure SendRequest where
  user : Option String
  password : Option String
  fromAddr : Option String
  toAddr : Option String
  subject : Option String
  text : Option String
  html : Option String
  attachments : Option (List Attachment)
deriving DecidableEq, Repr

/-- Attachment entry as passed to the transport (server.js lines 154-159). -/
structure MailAttachment where
  filename : String
  content : String
  encoding : String
  contentType : String
deriving DecidableEq, Repr

/-- The `mailOptions` object handed to `transporter.sendMail`. -/
structure MailOptions where
  fromAddr : String
  toAddr : String
  subject : String
  text : String
  html : String
  attachments : Option (List MailAttachment)
deriving DecidableEq, Repr

/-- The three process-wide mutable globals of server.js (lines 12-14). -/
structure ServerState where
  isSending : Bool
  stopRequested : Bool
  emailCount : Nat
deriving DecidableEq, Repr

/-- A JSON response together with its HTTP status.  Optional fields are
`none` when the handler's object literal does not mention them. -/
structure Response where
  status : Nat
  success : Bool
  message : String
  messageId : Option String
  emailCount : Option Nat
  shouldWait : Option Bool
  interrupted : Option Bool
deriving DecidableEq, Repr

/-- Transport-facing events of a handler run. -/
inductive Event where
  | createSession
  | verifyCall
  | submit (opts : MailOptions)
deriving DecidableEq, Repr

/-- Environment of one `POST /send-gmail` run: outcome of the two awaited
transport calls, and whether a `POST /stop-sending` request is processed
while the handler is suspended at each of them. -/
structure FullSendEnv where
  verifyResult : Option TransportError
  sendResult : Except TransportError String
  stopDuringVerify : Bool
  stopDuringSend : Bool
deriving Repr

/-- Environment of one `POST /send-gmail-simple` run: it has a single
suspension point (`sendMail`). -/
structure SimpleSendEnv where
  sendResult : Except TransportError String
  stopDuringSend : Bool
deriving Repr

/-- JS truthiness of a possibly-absent string: `undefined` and `""` are
falsy, every other string is truthy. -/
def truthy : Option String → Bool
  | none => false
  | some s => !(s == "")

/-- ‹pat› is a prefix of ‹cs›. -/
def listStartsWith : List Char → List Char → Bool
  | [], _ => true
  | _ :: _, [] => false
  | p :: ps, c :: cs => p == c && listStartsWith ps cs

/-- ‹pat› occurs somewhere inside ‹cs›. -/
def listContainsSeq (pat : List Char) : List Char → Bool
  | [] => pat.isEmpty
  | c :: cs => listStartsWith pat (c :: cs) || listContainsSeq pat cs

/-- JS `String.prototype.includes`: does `pat` occur in `s` as a substring? -/
def includesStr (s pat : String) : Bool :=
  listContainsSeq pat.data s.data

/-- Character-level body of `text.replace(/\n/g, '<br>')`. -/
def replaceNlBr : List Char → List Char
  | [] => []
  | c :: cs =>
    if c == '\n' then '<' :: 'b' :: 'r' :: '>' :: replaceNlBr cs
    else c :: replaceNlBr cs

/-- JS `text.replace(/\n/g, '<br>')`: every line break becomes `<br>`. -/
def jsReplaceNlBr (s : String) : String :=
  ⟨replaceNlBr s.data⟩

/-- Message thrown at the cancellation checkpoints and reported for
interrupted sends. -/
def interruptedMsg : String := "Envios interrompidos pelo usuário"

/-- Busy-rejection message (server.js lines 112 and 245). -/
def busyMsg : String :=
  "Já existe um envio em andamento. Aguarde ou cancele o envio atual."

/-- Validation-failure message (server.js lines 128 and 259). -/
def invalidMsg : String :=
  "Dados incompletos. Verifique user, password, to, subject e text."

/-- Quota-exceeded message (server.js lines 213 and 322). -/
def quotaMsg : String :=
  "📧 Limite diário do Gmail atingido! ⚠️\n\nVocê atingiu o limite de envios do Gmail para hoje.\nPor favor, aguarde até amanhã para continuar enviando e-mails."

/-- Suspicious-activity message (server.js line 217). -/
def suspiciousMsg : String :=
  "📧 E-mail bloqueado pelo Gmail! ⚠️\n\nO Gmail detectou atividade incomum e bloqueou o envio.\nAguarde algumas horas ou tente novamente amanhã."

/-- Success message (server.js lines 187 and 305). -/
def successMsg : String := "E-mail enviado com sucesso!"

/-- `POST /stop-sending` (server.js lines 86-100): if a send is in flight,
set `stopRequested` and report success; otherwise report failure and leave
everything untouched. -/
def stopSending (s : ServerState) : Response × ServerState :=
  if s.isSending then
    ({ status := 200, success := true,
       message := "Parada de envio solicitada. Aguarde...",
       messageId := none, emailCount := none,
       shouldWait := none, interrupted := none },
     { s with stopRequested := true })
  else
    ({ status := 200, success := false,
       message := "Nenhum envio em andamento",
       messageId := none, emailCount := none,
       shouldWait := none, interrupted := none },
     s)

/-- The `emails` block of the `GET /status` payload (server.js lines 47-50):
both `today` and `total` are read from the same counter. -/
structure StatusEmails where
  today : Nat
  total : Nat
deriving DecidableEq, Repr

/-- `GET /status` projection of the shared state (server.js lines 37-54),
restricted to the fields derived from it. -/
def statusRoute (s : ServerState) : StatusEmails :=
  { today := s.emailCount, total := s.emailCount }

/-- `GET /sending-status` (server.js lines 75-81). -/
def sendingStatus (s : ServerState) : Bool × Bool × Nat :=
  (s.isSending, s.stopRequested, s.emailCount)

/-- The validation of server.js line 124 / 255:
`!user || !password || !to || !subject || !text` is the negation of this. -/
def validFields (req : SendRequest) : Bool :=
  truthy req.user && truthy req.password && truthy req.toAddr &&
  truthy req.subject && truthy req.text

/-- The `mailOptions` of the full route (server.js lines 144-160):
`from: from || user`, `html: html || text.replace(/\n/g, '<br>')`, and an
`attachments` field only when a non-empty list was supplied. -/
def mkMailOptions (req : SendRequest) : MailOptions :=
  { fromAddr := if truthy req.fromAddr then req.fromAddr.getD "" else req.user.getD ""
    toAddr := req.toAddr.getD ""
    subject := req.subject.getD ""
    text := req.text.getD ""
    html :=
      if truthy req.html then req.html.getD ""
      else jsReplaceNlBr (req.text.getD "")
    attachments :=
      match req.attachments with
      | some atts =>
          if atts.length > 0 then
            some (atts.map fun a =>
              { filename := a.filename, content := a.content,
                encoding := "base64", contentType := a.contentType })
          else none
      | none => none }

/-- The `mailOptions` of the simple route (server.js lines 281-287):
`from: user`, `html: html || text`, no attachments. -/
def mkSimpleMailOptions (req : SendRequest) : MailOptions :=
  { fromAddr := req.user.getD ""
    toAddr := req.toAddr.getD ""
    subject := req.subject.getD ""
    text := req.text.getD ""
    html := if truthy req.html then req.html.getD "" else req.text.getD ""
    attachments := none }

/-- Failure taxonomy realised by the catch cascade of the full route
(server.js lines 198-221), one constructor per branch in source order. -/
inductive FailureKind where
  | interruptedByUser
  | authenticationFailed
  | envelopeRejected
  | invalidLogin
  | certificateError
  | quotaExceeded
  | suspiciousBlocked
  | transportOther
deriving DecidableEq, Repr

/-- Branch selection of the full route's catch block (server.js lines
198-221), in source order: the first matching branch wins. -/
def classifyError (stopReq : Bool) (e : TransportError) : FailureKind :=
  if stopReq then .interruptedByUser
  else if e.code == some "EAUTH" then .authenticationFailed
  else if e.code == some "EENVELOPE" then .envelopeRejected
  else if includesStr e.message "Invalid login" then .invalidLogin
  else if includesStr e.message "self signed certificate" then .certificateError
  else if includesStr e.message "quota" || includesStr e.message "limit exceeded" ||
          includesStr e.message "too many" || includesStr e.message "rate limit" ||
          e.code == some "EMAXLIMIT" then .quotaExceeded
  else if includesStr e.message "Message rejected" ||
          includesStr e.message "suspicious activity" then .suspiciousBlocked
  else .transportOther

/-- The `errorMessage` assigned by each branch of the full catch cascade. -/
def fullErrorMessage (k : FailureKind) (e : TransportError) : String :=
  match k with
  | .interruptedByUser => interruptedMsg
  | .authenticationFailed => "Erro de autenticação. Verifique o e-mail e senha de app."
  | .envelopeRejected => "Erro no envelope do e-mail. Verifique os destinatários."
  | .invalidLogin => "Login inválido. Verifique as credenciais do Gmail."
  | .certificateError => "Erro de certificado. Tente usar secure: false na configuração."
  | .quotaExceeded => quotaMsg
  | .suspiciousBlocked => suspiciousMsg
  | .transportOther => e.message

/-- The `shouldWait` flag assigned by each branch of the full catch cascade:
only the quota and suspicious-activity branches set it. -/
def fullShouldWait (k : FailureKind) : Bool :=
  k == .quotaExceeded || k == .suspiciousBlocked

/-- The catch block of `POST /send-gmail` (lines 192-228) followed by its
`finally` (lines 230-234): classify the error against the current
`stopRequested`, answer HTTP 500 with `shouldWait` and `interrupted`,
then reset both gate flags. -/
def fullCatch (e : TransportError) (s : ServerState) (tr : List Event) :
    Response × ServerState × List Event :=
  let k := classifyError s.stopRequested e
  ({ status := 500, success := false, message := fullErrorMessage k e,
     messageId := none, emailCount := none,
     shouldWait := some (fullShouldWait k),
     interrupted := some s.stopRequested },
   { s with isSending := false, stopRequested := false },
   tr)

/-- `POST /send-gmail` (server.js lines 105-235).  Busy requests are
rejected with HTTP 429 before the try block, so the `finally` does not run
for them.  Otherwise the handler sets `isSending := true`,
`stopRequested := false`, validates, creates the transporter, polls the
cancellation flag before and after `await transporter.verify()`, submits,
and on success increments the counter; every try-block exit (including the
early validation return) passes through the `finally`, which clears both
flags.  A `POST /stop-sending` processed during an awaited call is applied
to the state at that suspension point. -/
def sendGmail (req : SendRequest) (env : FullSendEnv) (s : ServerState) :
    Response × ServerState × List Event :=
  if s.isSending then
    ({ status := 429, success := false, message := busyMsg,
       messageId := none, emailCount := none,
       shouldWait := none, interrupted := none }, s, [])
  else
    let s1 : ServerState := { s with isSending := true, stopRequested := false }
    if !(validFields req) then
      ({ status := 400, success := false, message := invalidMsg,
         messageId := none, emailCount := none,
         shouldWait := none, interrupted := none },
       { s1 with isSending := false, stopRequested := false }, [])
    else
      let opts := mkMailOptions req
      if s1.stopRequested then
        fullCatch { code := none, message := interruptedMsg } s1 [.createSession]
      else
        let s2 := if env.stopDuringVerify then (stopSending s1).2 else s1
        match env.verifyResult with
        | some e => fullCatch e s2 [.createSession, .verifyCall]
        | none =>
          if s2.stopRequested then
            fullCatch { code := none, message := interruptedMsg } s2
              [.createSession, .verifyCall]
          else
            let s3 := if env.stopDuringSend then (stopSending s2).2 else s2
            match env.sendResult with
            | .error e => fullCatch e s3 [.createSession, .verifyCall, .submit opts]
            | .ok mid =>
              let s4 : ServerState := { s3 with emailCount := s3.emailCount + 1 }
              ({ status := 200, success := true, message := successMsg,
                 messageId := some mid, emailCount := some s4.emailCount,
                 shouldWait := none, interrupted := none },
               { s4 with isSending := false, stopRequested := false },
               [.createSession, .verifyCall, .submit opts])

/-- The catch block of `POST /send-gmail-simple` (lines 310-331) followed
by its `finally` (lines 333-336): default message is the error's own, the
only special branches are interruption and the quota markers (no code
checks, no EMAXLIMIT). -/
def simpleCatch (e : TransportError) (s : ServerState) (tr : List Event) :
    Response × ServerState × List Event :=
  let quota := includesStr e.message "quota" || includesStr e.message "limit exceeded" ||
               includesStr e.message "too many" || includesStr e.message "rate limit"
  let msg := if s.stopRequested then interruptedMsg
             else if quota then quotaMsg
             else e.message
  let sw := if s.stopRequested then false else quota
  ({ status := 500, success := false, message := msg,
     messageId := none, emailCount := none,
     shouldWait := some sw, interrupted := some s.stopRequested },
   { s with isSending := false, stopRequested := false },
   tr)

/-- `POST /send-gmail-simple` (server.js lines 238-337).  Same gate
protocol as the full route; both cancellation polls precede the first
`await`, the transporter is created without a verify step, and the catch
cascade is the smaller one. -/
def sendGmailSimple (req : SendRequest) (env : SimpleSendEnv) (s : ServerState) :
    Response × ServerState × List Event :=
  if s.isSending then
    ({ status := 429, success := false, message := busyMsg,
       messageId := none, emailCount := none,
       shouldWait := none, interrupted := none }, s, [])
  else
    let s1 : ServerState := { s with isSending := true, stopRequested := false }
    if !(validFields req) then
      ({ status := 400, success := false, message := invalidMsg,
         messageId := none, emailCount := none,
         shouldWait := none, interrupted := none },
       { s1 with isSending := false, stopRequested := false }, [])
    else if s1.stopRequested then
      simpleCatch { code := none, message := interruptedMsg } s1 []
    else
      let opts := mkSimpleMailOptions req
      if s1.stopRequested then
        simpleCatch { code := none, message := interruptedMsg } s1 [.createSession]
      else
        let s2 := if env.stopDuringSend then (stopSending s1).2 else s1
        match env.sendResult with
        | .error e => simpleCatch e s2 [.createSession, .submit opts]
        | .ok mid =>
          let s3 : ServerState := { s2 with emailCount := s2.emailCount + 1 }
          ({ status := 200, success := true, message := successMsg,
             messageId := some mid, emailCount := some s3.emailCount,
             shouldWait := none, interrupted := none },
           { s3 with isSending := false, stopRequested := false },
           [.createSession, .submit opts])

/-- One externally observable operation on the shared state, for stating
properties over whole process lifetimes.  `faultReset` is the
`uncaughtException` / `unhandledRejection` safety net (lines 383-393),
which clears the gate flags and leaves the counter alone; the read-only
routes are represented by `readOnly`. -/
inductive Op where
  | send (req : SendRequest) (env : FullSendEnv)
  | sendSimple (req : SendRequest) (env : SimpleSendEnv)
  | stop
  | faultReset
  | readOnly
deriving Repr

/-- State transition of one operation. -/
def runOp : Op → ServerState → ServerState
  | .send req env, s => (sendGmail req env s).2.1
  | .sendSimple req env, s => (sendGmailSimple req env s).2.1
  | .stop, s => (stopSending s).2
  | .faultReset, s => { s with isSending := false, stopRequested := false }
  | .readOnly, s => s

/-- State after a sequence of operations. -/
def runOps : List Op → ServerState → ServerState
  | [], s => s
  | op :: ops, s => runOps ops (runOp op s)

/-- A well-formed request: all required fields present, no `html`, `from`
or attachments, body text with a line break. -/
def reqOK : SendRequest :=
  { user := some "a@gmail.com", password := some "app-pw", fromAddr := none,
    toAddr := some "b@example.com", subject := some "hello",
    text := some "line1\nline2", html := none, attachments := none }

/-- `reqOK` with the required `subject` missing. -/
def reqNoSubject : SendRequest := { reqOK with subject := none }

/-- `reqOK` with the required `user` missing. -/
def reqNoUser : SendRequest := { reqOK with user := none }

/-- `reqOK` with `html` present but equal to the empty string. -/
def reqEmptyHtml : SendRequest := { reqOK with html := some "" }

/-- Transport succeeds at both calls, no stop request arrives. -/
def envOK : FullSendEnv :=
  { verifyResult := none, sendResult := .ok "abc123",
    stopDuringVerify := false, stopDuringSend := false }

/-- A stop request is processed while the handler awaits `verify()`. -/
def envStopVerify : FullSendEnv :=
  { envOK with stopDuringVerify := true }

/-- `sendMail` rejects with code `EAUTH` and a message that nevertheless
contains the `quota` marker. -/
def errAuthQuota : TransportError :=
  { code := some "EAUTH", message := "Daily user sending quota exceeded" }

/-- Environment in which `sendMail` rejects with `errAuthQuota`. -/
def envAuthQuota : FullSendEnv :=
  { envOK with sendResult := .error errAuthQuota }

/-- A plain rate-limit error without any code. -/
def errRateLimit : TransportError :=
  { code := none, message := "421 rate limit hit, slow down" }

/-- Environment in which `sendMail` rejects with `errRateLimit`. -/
def envRateLimit : FullSendEnv :=
  { envOK with sendResult := .error errRateLimit }

/-- Simple-route environment: `sendMail` succeeds, no stop request. -/
def envSimpleOK : SimpleSendEnv :=
  { sendResult := .ok "abc123", stopDuringSend := false }

/-- Initial state of the process: gate free, counter zero. -/
def st0 : ServerState :=
  { isSending := false, stopRequested := false, emailCount := 0 }

/-- A state in which a send is in flight and cancellation has already been
requested. -/
def stBusyStop : ServerState :=
  { isSending := true, stopRequested := true, emailCount := 0 }

/-- The counter change of one full-route run: `+1` exactly on the success
response, `+0` otherwise. -/
theorem sendGmail_count (req : SendRequest) (env : FullSendEnv) (s : ServerState) :
    (sendGmail req env s).2.1.emailCount
      = s.emailCount + (if (sendGmail req env s).1.success then 1 else 0) := by
  rcases s with ⟨sv, sr, ec⟩
  rcases env with ⟨vr, sres, sdv, sds⟩
  cases sv <;> cases hv : validFields req <;>
    cases vr <;> cases sres <;> cases sdv <;> cases sds <;>
      simp [sendGmail, fullCatch, stopSending, hv]

/-- The counter change of one simple-route run: `+1` exactly on the success
response, `+0` otherwise. -/
theorem sendGmailSimple_count (req : SendRequest) (env : SimpleSendEnv) (s : ServerState) :
    (sendGmailSimple req env s).2.1.emailCount
      = s.emailCount + (if (sendGmailSimple req env s).1.success then 1 else 0) := by
  rcases s with ⟨sv, sr, ec⟩
  rcases env with ⟨sres, sds⟩
  cases sv <;> cases hv : validFields req <;>
    cases sres <;> cases sds <;>
      simp [sendGmailSimple, simpleCatch, stopSending, hv]

/-- No single operation decreases the counter. -/
theorem runOp_count_le (op : Op) (s : ServerState) :
    s.emailCount ≤ (runOp op s).emailCount := by
  cases op with
  | send req env =>
      have h := sendGmail_count req env s
      simp only [runOp, h]
      cases (sendGmail req env s).1.success <;> simp
  | sendSimple req env =>
      have h := sendGmailSimple_count req env s
      simp only [runOp, h]
      cases (sendGmailSimple req env s).1.success <;> simp
  | stop =>
      rcases s with ⟨sv, sr, ec⟩
      cases sv <;> simp [runOp, stopSending]
  | faultReset => simp [runOp]
  | readOnly => simp [runOp]

/-- No sequence of operations decreases the counter. -/
theorem runOps_count_le (ops : List Op) (s : ServerState) :
    s.emailCount ≤ (runOps ops s).emailCount := by
  induction ops generalizing s with
  | nil => simp [runOps]
  | cons op ops ih =>
      exact Nat.le_trans (runOp_count_le op s) (ih (runOp op s))

/-- Claim C1: every completed send invocation that actually entered the
handler body — success, validation failure, cancellation, or any transport
failure — leaves the gate with `busy = false` and `cancelRequested = false`
(the `finally` blocks of both routes). -/
theorem claim_C1_release_on_all_paths (req : SendRequest) (envF : FullSendEnv)
    (envS : SimpleSendEnv) (s : ServerState) (h : s.isSending = false) :
    ((sendGmail req envF s).2.1.isSending = false ∧
     (sendGmail req envF s).2.1.stopRequested = false) ∧
    ((sendGmailSimple req envS s).2.1.isSending = false ∧
     (sendGmailSimple req envS s).2.1.stopRequested = false) := by
  rcases envF with ⟨vr, sres, sdv, sds⟩
  rcases envS with ⟨sres2, sds2⟩
  constructor
  · cases hv : validFields req <;> cases vr <;> cases sres <;> cases sdv <;> cases sds <;>
      simp [sendGmail, fullCatch, stopSending, h, hv]
  · cases hv : validFields req <;> cases sres2 <;> cases sds2 <;>
      simp [sendGmailSimple, simpleCatch, stopSending, h, hv]

/-- Witness for C1 at a concrete successful run from the initial state. -/
theorem claim_C1_witness :
    (sendGmail reqOK envOK st0).2.1.isSending = false ∧
    (sendGmail reqOK envOK st0).2.1.stopRequested = false :=
  (claim_C1_release_on_all_paths reqOK envOK envSimpleOK st0 rfl).1

/-- Claim C2: a send request arriving while the gate is held is rejected
with HTTP 429 and the busy message, and the rejected attempt changes
nothing: state (gate flags and counter) identical, no transport contact. -/
theorem claim_C2_busy_rejected (req : SendRequest) (envF : FullSendEnv)
    (envS : SimpleSendEnv) (s : ServerState) (h : s.isSending = true) :
    ((sendGmail req envF s).1.status = 429 ∧
     (sendGmail req envF s).1.success = false ∧
     (sendGmail req envF s).1.message = busyMsg ∧
     (sendGmail req envF s).2.1 = s ∧
     (sendGmail req envF s).2.2 = []) ∧
    ((sendGmailSimple req envS s).1.status = 429 ∧
     (sendGmailSimple req envS s).1.success = false ∧
     (sendGmailSimple req envS s).1.message = busyMsg ∧
     (sendGmailSimple req envS s).2.1 = s ∧
     (sendGmailSimple req envS s).2.2 = []) := by
  simp [sendGmail, sendGmailSimple, h]

/-- Witness for C2 at a concrete busy state. -/
theorem claim_C2_witness :
    (sendGmail reqOK envOK stBusyStop).1.status = 429 ∧
    (sendGmail reqOK envOK stBusyStop).2.1 = stBusyStop :=
  ⟨(claim_C2_busy_rejected reqOK envOK envSimpleOK stBusyStop rfl).1.1,
   (claim_C2_busy_rejected reqOK envOK envSimpleOK stBusyStop rfl).1.2.2.2.1⟩

/-- Claim C3: the counter grows by exactly 1 on a success response and by
exactly 0 on any failure response, on both routes, and no sequence of
operations ever decreases it. -/
theorem claim_C3_counter_monotone (req : SendRequest) (envF : FullSendEnv)
    (envS : SimpleSendEnv) (s : ServerState) (ops : List Op) :
    ((sendGmail req envF s).1.success = true →
       (sendGmail req envF s).2.1.emailCount = s.emailCount + 1) ∧
    ((sendGmail req envF s).1.success = false →
       (sendGmail req envF s).2.1.emailCount = s.emailCount) ∧
    ((sendGmailSimple req envS s).1.success = true →
       (sendGmailSimple req envS s).2.1.emailCount = s.emailCount + 1) ∧
    ((sendGmailSimple req envS s).1.success = false →
       (sendGmailSimple req envS s).2.1.emailCount = s.emailCount) ∧
    s.emailCount ≤ (runOps ops s).emailCount := by
  refine ⟨fun h => ?_, fun h => ?_, fun h => ?_, fun h => ?_, runOps_count_le ops s⟩
  · rw [sendGmail_count, h]; rfl
  · rw [sendGmail_count, h]; rfl
  · rw [sendGmailSimple_count, h]; rfl
  · rw [sendGmailSimple_count, h]; rfl

/-- Witness for C3: one concrete successful send from the initial state
bumps the counter to 1. -/
theorem claim_C3_witness :
    (sendGmail reqOK envOK st0).2.1.emailCount = st0.emailCount + 1 :=
  (claim_C3_counter_monotone reqOK envOK envSimpleOK st0 []).1 (by decide)

/-- Claim C4: while busy, `POST /stop-sending` reports success, sets
`stopRequested`, touches nothing else, and repeating it any positive
number of times gives the same state as doing it once; while not busy it
reports failure and changes nothing. -/
theorem claim_C4_cancel_idempotent (s : ServerState) :
    (s.isSending = true →
       (stopSending s).1.success = true ∧
       (stopSending s).2.stopRequested = true ∧
       (stopSending s).2.isSending = s.isSending ∧
       (stopSending s).2.emailCount = s.emailCount ∧
       (∀ n, 1 ≤ n → (fun t => (stopSending t).2)^[n] s = (stopSending s).2)) ∧
    (s.isSending = false →
       (stopSending s).1.success = false ∧ (stopSending s).2 = s) := by
  rcases s with ⟨sv, sr, ec⟩
  cases sv
  · exact ⟨fun h => by simp at h, fun _ => by simp [stopSending]⟩
  · refine ⟨fun _ => ?_, fun h => by simp at h⟩
    refine ⟨by simp [stopSending], by simp [stopSending], by simp [stopSending],
            by simp [stopSending], ?_⟩
    intro n hn
    obtain ⟨m, rfl⟩ : ∃ m, n = m + 1 := ⟨n - 1, by omega⟩
    rw [Function.iterate_succ_apply]
    have h1 : (stopSending (⟨true, sr, ec⟩ : ServerState)).2
        = (⟨true, true, ec⟩ : ServerState) := by simp [stopSending]
    have h2 : (fun t => (stopSending t).2) (⟨true, true, ec⟩ : ServerState)
        = (⟨true, true, ec⟩ : ServerState) := by simp [stopSending]
    rw [h1, Function.iterate_fixed h2 m]

/-- Witness for C4 at a concrete busy state: success reported, and two
stop requests equal one. -/
theorem claim_C4_witness :
    (stopSending stBusyStop).1.success = true ∧
    (fun t => (stopSending t).2)^[2] stBusyStop = (stopSending stBusyStop).2 := by
  have h := (claim_C4_cancel_idempotent stBusyStop).1 rfl
  exact ⟨h.1, h.2.2.2.2 2 (by omega)⟩

/-- Claim C10: the `GET /status` payload reports `emails.today` equal to
`emails.total`; both are the same process-lifetime counter, so `today` is
never a per-day figure. -/
theorem claim_C10_today_equals_total (s : ServerState) :
    (statusRoute s).today = (statusRoute s).total ∧
    (statusRoute s).today = s.emailCount :=
  ⟨rfl, rfl⟩

/-- Counterexample to C5 as stated: the validation rejection (HTTP 400) is
a failure response of POST /send-gmail that carries neither a `shouldWait`
nor an `interrupted` field. -/
theorem claim_C5_counterexample :
    (sendGmail reqNoSubject envOK st0).1.success = false ∧
    (sendGmail reqNoSubject envOK st0).1.status = 400 ∧
    (sendGmail reqNoSubject envOK st0).1.shouldWait = none ∧
    (sendGmail reqNoSubject envOK st0).1.interrupted = none :=
  ⟨rfl, rfl, rfl, rfl⟩

/-- C5 as amended: every failure response carries a message; the
catch-produced failures (HTTP 500) additionally carry `shouldWait` and
`interrupted`, while the validation (400) and busy (429) rejections carry
neither; no other failure status exists. -/
theorem claim_C5_failure_shape (req : SendRequest) (envF : FullSendEnv)
    (envS : SimpleSendEnv) (s : ServerState) :
    ((sendGmail req envF s).1.success = false →
       (((sendGmail req envF s).1.status = 500 →
           ((sendGmail req envF s).1.shouldWait).isSome = true ∧
           ((sendGmail req envF s).1.interrupted).isSome = true) ∧
        ((sendGmail req envF s).1.status = 400 ∨ (sendGmail req envF s).1.status = 429 →
           (sendGmail req envF s).1.shouldWait = none ∧
           (sendGmail req envF s).1.interrupted = none) ∧
        ((sendGmail req envF s).1.status = 400 ∨ (sendGmail req envF s).1.status = 429 ∨
           (sendGmail req envF s).1.status = 500))) ∧
    ((sendGmailSimple req envS s).1.success = false →
       (((sendGmailSimple req envS s).1.status = 500 →
           ((sendGmailSimple req envS s).1.shouldWait).isSome = true ∧
           ((sendGmailSimple req envS s).1.interrupted).isSome = true) ∧
        ((sendGmailSimple req envS s).1.status = 400 ∨
           (sendGmailSimple req envS s).1.status = 429 →
           (sendGmailSimple req envS s).1.shouldWait = none ∧
           (sendGmailSimple req envS s).1.interrupted = none) ∧
        ((sendGmailSimple req envS s).1.status = 400 ∨
           (sendGmailSimple req envS s).1.status = 429 ∨
           (sendGmailSimple req envS s).1.status = 500))) := by
  constructor
  · intro hf
    rcases envF with ⟨vr, sres, sdv, sds⟩
    cases hs : s.isSending <;> cases hv : validFields req <;>
      cases vr <;> cases sres <;> cases sdv <;> cases sds <;>
        simp [sendGmail, fullCatch, stopSending, hs, hv] at hf ⊢
  · intro hf
    rcases envS with ⟨sres, sds⟩
    cases hs : s.isSending <;> cases hv : validFields req <;>
      cases sres <;> cases sds <;>
        simp [sendGmailSimple, simpleCatch, stopSending, hs, hv] at hf ⊢

/-- Witness for the amended C5 at a concrete transport failure. -/
theorem claim_C5_witness :
    ((sendGmail reqOK envAuthQuota st0).1.shouldWait).isSome = true ∧
    ((sendGmail reqOK envAuthQuota st0).1.interrupted).isSome = true :=
  ((claim_C5_failure_shape reqOK envAuthQuota envSimpleOK st0).1 (by decide)).1 (by decide)

/-- Claim C6: a send request with a required field missing is rejected with
HTTP 400 and a message containing "Dados incompletos", the transport is
never contacted, and the gate is free afterwards (both routes). -/
theorem claim_C6_invalid_input (req : SendRequest) (envF : FullSendEnv)
    (envS : SimpleSendEnv) (s : ServerState) (h : s.isSending = false)
    (hm : req.user = none ∨ req.password = none ∨ req.toAddr = none ∨
          req.subject = none ∨ req.text = none) :
    ((sendGmail req envF s).1.status = 400 ∧
     (sendGmail req envF s).1.success = false ∧
     includesStr (sendGmail req envF s).1.message "Dados incompletos" = true ∧
     (sendGmail req envF s).2.2 = [] ∧
     (sendGmail req envF s).2.1.isSending = false) ∧
    ((sendGmailSimple req envS s).1.status = 400 ∧
     (sendGmailSimple req envS s).1.success = false ∧
     includesStr (sendGmailSimple req envS s).1.message "Dados incompletos" = true ∧
     (sendGmailSimple req envS s).2.2 = [] ∧
     (sendGmailSimple req envS s).2.1.isSending = false) := by
  have hv : validFields req = false := by
    rcases hm with h1 | h1 | h1 | h1 | h1 <;> simp [validFields, truthy, h1]
  refine ⟨⟨?_, ?_, ?_, ?_, ?_⟩, ?_, ?_, ?_, ?_, ?_⟩ <;>
    simp [sendGmail, sendGmailSimple, h, hv] <;> decide

/-- Witness for C6 at a concrete request missing `user`. -/
theorem claim_C6_witness :
    (sendGmail reqNoUser envOK st0).1.status = 400 ∧
    includesStr (sendGmail reqNoUser envOK st0).1.message "Dados incompletos" = true :=
  ⟨(claim_C6_invalid_input reqNoUser envOK envSimpleOK st0 rfl (Or.inl rfl)).1.1,
   (claim_C6_invalid_input reqNoUser envOK envSimpleOK st0 rfl (Or.inl rfl)).1.2.2.1⟩

/-- Counterexample to C7 as stated: with `body_html` present but equal to
the empty string, the submitted HTML body is derived from `body_text`
rather than used unchanged, because JS `||` treats `""` as absent. -/
theorem claim_C7_counterexample :
    reqEmptyHtml.html = some "" ∧
    (sendGmail reqEmptyHtml envOK st0).2.2
      = [Event.createSession, Event.verifyCall, Event.submit (mkMailOptions reqEmptyHtml)] ∧
    (mkMailOptions reqEmptyHtml).html = "line1<br>line2" ∧
    (mkMailOptions reqEmptyHtml).html ≠ "" := by
  refine ⟨rfl, rfl, by decide, by decide⟩

/-- C7 as amended: in every full-send run, a submitted message carries an
HTML body equal to `body_text` with every line break replaced by `<br>`
whenever `body_html` is absent or empty, and equal to `body_html`
unchanged whenever it is present and non-empty. -/
theorem claim_C7_html_default (req : SendRequest) (env : FullSendEnv)
    (s : ServerState) (opts : MailOptions) (h : s.isSending = false)
    (hsub : Event.submit opts ∈ (sendGmail req env s).2.2) :
    ((req.html = none ∨ req.html = some "") →
        opts.html = jsReplaceNlBr (req.text.getD "")) ∧
    (∀ hh : String, req.html = some hh → hh ≠ "" → opts.html = hh) := by
  have hopts : opts = mkMailOptions req := by
    rcases env with ⟨vr, sres, sdv, sds⟩
    cases hv : validFields req <;> cases vr <;> cases sres <;> cases sdv <;> cases sds <;>
      simp [sendGmail, fullCatch, stopSending, h, hv] at hsub <;> exact hsub
  subst hopts
  constructor
  · intro hh
    rcases hh with h1 | h1 <;> simp [mkMailOptions, truthy, h1]
  · intro hh h1 h2
    simp [mkMailOptions, truthy, h1, h2]

/-- Witness for the amended C7: a run with `html` absent submits the
derived body. -/
theorem claim_C7_witness :
    (mkMailOptions reqOK).html = jsReplaceNlBr (reqOK.text.getD "") :=
  (claim_C7_html_default reqOK envOK st0 (mkMailOptions reqOK) rfl (by decide)).1
    (Or.inl rfl)

/-- Counterexample to C8 as stated: a transport error whose message
contains the `quota` marker but whose code is `EAUTH` takes the earlier
authentication branch of the cascade, so `shouldWait` is `false` even
though no cancellation was requested. -/
theorem claim_C8_counterexample :
    includesStr errAuthQuota.message "quota" = true ∧
    (sendGmail reqOK envAuthQuota st0).1.success = false ∧
    (sendGmail reqOK envAuthQuota st0).1.interrupted = some false ∧
    (sendGmail reqOK envAuthQuota st0).1.shouldWait = some false ∧
    classifyError false errAuthQuota = FailureKind.authenticationFailed := by
  refine ⟨by decide, by decide, by decide, by decide, by decide⟩

/-- C8 as amended: a transport failure carrying a quota or sending-limit
marker, with no cancellation requested and matching none of the earlier
cascade branches (codes `EAUTH`/`EENVELOPE`, messages with
`Invalid login` or `self signed certificate`), is classified as the
quota-exceeded kind and answered with `shouldWait = true` and the
quota message. -/
theorem claim_C8_quota_shouldwait (req : SendRequest) (env : FullSendEnv)
    (s : ServerState) (e : TransportError)
    (h : s.isSending = false) (hv : validFields req = true)
    (hdv : env.stopDuringVerify = false) (hds : env.stopDuringSend = false)
    (he : env.verifyResult = some e ∨
          (env.verifyResult = none ∧ env.sendResult = Except.error e))
    (hq : (includesStr e.message "quota" || includesStr e.message "limit exceeded" ||
           includesStr e.message "too many" || includesStr e.message "rate limit" ||
           e.code == some "EMAXLIMIT") = true)
    (h1 : (e.code == some "EAUTH") = false)
    (h2 : (e.code == some "EENVELOPE") = false)
    (h3 : includesStr e.message "Invalid login" = false)
    (h4 : includesStr e.message "self signed certificate" = false) :
    classifyError false e = FailureKind.quotaExceeded ∧
    (sendGmail req env s).1.status = 500 ∧
    (sendGmail req env s).1.shouldWait = some true ∧
    (sendGmail req env s).1.message = quotaMsg ∧
    (sendGmail req env s).1.interrupted = some false := by
  have hk : classifyError false e = FailureKind.quotaExceeded := by
    simp [classifyError, h1, h2, h3, h4, hq]
  refine ⟨hk, ?_⟩
  rcases he with he | ⟨he1, he2⟩
  · simp [sendGmail, fullCatch, h, hv, hdv, he, hk, fullErrorMessage, fullShouldWait]
  · simp [sendGmail, fullCatch, h, hv, hdv, hds, he1, he2, hk,
          fullErrorMessage, fullShouldWait]

/-- Witness for the amended C8 at a concrete rate-limit error. -/
theorem claim_C8_witness :
    (sendGmail reqOK envRateLimit st0).1.shouldWait = some true ∧
    (sendGmail reqOK envRateLimit st0).1.message = quotaMsg :=
  ⟨(claim_C8_quota_shouldwait reqOK envRateLimit st0 errRateLimit rfl (by decide) rfl rfl
      (Or.inr ⟨rfl, rfl⟩) (by decide) (by decide) (by decide) (by decide)
      (by decide)).2.2.1,
   (claim_C8_quota_shouldwait reqOK envRateLimit st0 errRateLimit rfl (by decide) rfl rfl
      (Or.inr ⟨rfl, rfl⟩) (by decide) (by decide) (by decide) (by decide)
      (by decide)).2.2.2.1⟩

/-- Counterexample to C9 as stated: the busy rejection is a failure
response produced while cancellation stands requested, yet it reports no
`interrupted` flag at all. -/
theorem claim_C9_counterexample :
    (sendGmail reqOK envOK stBusyStop).1.success = false ∧
    stBusyStop.stopRequested = true ∧
    (sendGmail reqOK envOK stBusyStop).1.interrupted = none :=
  ⟨rfl, rfl, rfl⟩

/-- C9 as amended: if cancellation is pending when the post-verify
checkpoint is evaluated, the message is never submitted and the run ends
in the interrupted failure with `interrupted = true`; and every
catch-produced failure (HTTP 500) reports `interrupted` equal to whether
a stop request had arrived at a suspension point before the failure.  The
400 and 429 rejections carry no `interrupted` field (see the C9
counterexample). -/
theorem claim_C9_checkpoint_interrupted (req : SendRequest) (env : FullSendEnv)
    (s : ServerState) (h : s.isSending = false) (hv : validFields req = true) :
    ((env.stopDuringVerify = true → env.verifyResult = none →
       (∀ o : MailOptions, Event.submit o ∉ (sendGmail req env s).2.2) ∧
       (sendGmail req env s).1.status = 500 ∧
       (sendGmail req env s).1.success = false ∧
       (sendGmail req env s).1.message = interruptedMsg ∧
       (sendGmail req env s).1.interrupted = some true)) ∧
    ((sendGmail req env s).1.status = 500 →
       (sendGmail req env s).1.interrupted
         = some (env.stopDuringVerify ||
                 ((env.verifyResult).isNone && env.stopDuringSend))) := by
  constructor
  · intro hdv hvr
    simp [sendGmail, fullCatch, stopSending, h, hv, hdv, hvr, classifyError,
          fullErrorMessage]
  · intro h500
    rcases env with ⟨vr, sres, sdv, sds⟩
    cases vr <;> cases sres <;> cases sdv <;> cases sds <;>
      simp [sendGmail, fullCatch, stopSending, h, hv] at h500 ⊢

/-- Witness for the amended C9: a stop request processed during `verify`
interrupts the run before submission. -/
theorem claim_C9_witness :
    (sendGmail reqOK envStopVerify st0).1.status = 500 ∧
    (sendGmail reqOK envStopVerify st0).1.message = interruptedMsg ∧
    (sendGmail reqOK envStopVerify st0).1.interrupted = some true ∧
    Event.submit (mkMailOptions reqOK) ∉ (sendGmail reqOK envStopVerify st0).2.2 := by
  have hx := (claim_C9_checkpoint_interrupted reqOK envStopVerify st0 rfl (by decide)).1
    rfl rfl
  exact ⟨hx.2.1, hx.2.2.2.1, hx.2.2.2.2, hx.1 (mkMailOptions reqOK)⟩
